import Mathlib

/-!
Verification development for the D200 controller repository
(src/main.py and src/Dashboard.py).

The heart of the program is the session countdown state machine
(class SessionTimer, identical control flow in both files apart from the
optional on_tick callback that only Dashboard.py has), the session
orchestrator (class D200Controller in main.py), the focus acquisition
loops (class WindowsController) and the export archiving helper
(MacroActions.compress_folder in Dashboard.py).  Each Python method is
embedded below as a pure Lean function; externally mutated state (the
is_running flag flipped by stop from another thread, the window locator,
the filesystem) is passed in explicitly.
-/

namespace D200

/-- Observable callback and cue events emitted by the timer thread
(SessionTimer.run in Dashboard.py lines 143-156; main.py lines 234-252 is
identical except that it has no on_tick callback).
tickEv r        = the per-second on_tick callback, invoked with the already
                  decremented remaining_seconds r;
remind t cue r  = the reminder branch for threshold t: the cue sound plays
                  and on_remind is invoked, at remaining_seconds r;
endEv           = the natural-expiry branch: the "end" cue plays and on_end
                  is invoked. -/
inductive TimerEvent
  | tickEv : Nat → TimerEvent
  | remind : Nat → String → Nat → TimerEvent
  | endEv : TimerEvent
deriving DecidableEq, Repr

/-- The dict self.reminder_points from SessionTimer (main.py line 218,
Dashboard.py line 129): threshold 15 maps to the cue "end_15min" and
threshold 5 to "end_5min"; lookup of any other key misses. -/
def reminder_points (t : Nat) : Option String :=
  if t = 15 then some "end_15min"
  else if t = 5 then some "end_5min"
  else none

/-- The mutable fields of a SessionTimer object (constructor main.py
lines 210-219, Dashboard.py lines 120-130).  The Python set self.reminded
is embedded as a duplicate-free list consulted by membership. -/
structure SessionTimer where
  duration_minutes : Nat
  total_seconds : Nat
  remaining_seconds : Nat
  is_running : Bool
  reminded : List Nat
deriving DecidableEq, Repr

/-- SessionTimer.init duration_minutes: total_seconds and
remaining_seconds start at duration_minutes * 60, the timer is not
running and no reminder has fired. -/
def SessionTimer.init (duration_minutes : Nat) : SessionTimer :=
  { duration_minutes := duration_minutes
    total_seconds := duration_minutes * 60
    remaining_seconds := duration_minutes * 60
    is_running := false
    reminded := [] }

/-- SessionTimer.start (main.py lines 221-227, Dashboard.py lines
132-138): a no-op when already running; otherwise sets is_running, clears
the reminded set and launches the run thread on the current
remaining_seconds. -/
def SessionTimer.start (t : SessionTimer) : SessionTimer :=
  if t.is_running then t
  else { t with is_running := true, reminded := [] }

/-- SessionTimer.stop (main.py lines 229-232): clears is_running when it
is set, which makes the run loop exit at its next condition check. -/
def SessionTimer.stop (t : SessionTimer) : SessionTimer :=
  if t.is_running then { t with is_running := false } else t

/-- One pass of the while-loop body of SessionTimer.run: decrement
remaining_seconds, emit the on_tick callback, and when the integer
remaining minute is an unfired reminder threshold, mark it fired and emit
the reminder cue plus on_remind callback. -/
def tickStep (s : SessionTimer) : SessionTimer × List TimerEvent :=
  let r := s.remaining_seconds - 1
  let remaining_min := r / 60
  match reminder_points remaining_min with
  | some cue =>
    if remaining_min ∈ s.reminded then
      ({ s with remaining_seconds := r }, [TimerEvent.tickEv r])
    else
      ({ s with remaining_seconds := r, reminded := remaining_min :: s.reminded },
        [TimerEvent.tickEv r, TimerEvent.remind remaining_min cue r])
  | none => ({ s with remaining_seconds := r }, [TimerEvent.tickEv r])

/-- The while loop of SessionTimer.run.  The is_running flag is mutated
from outside the thread by stop, so it is passed in as the function
running, where running i is the value the flag has at its i-th read by
this thread.  The loop condition is the source condition
remaining_seconds > 0 and is_running.  fuel bounds the iterations; each
pass decrements remaining_seconds by one, so fuel = initial
remaining_seconds always suffices.  Returns the final state, the emitted
events in order, and the index of the read at which the loop exited. -/
def runLoop (running : Nat → Bool) : Nat → Nat → SessionTimer → SessionTimer × List TimerEvent × Nat
  | 0, i, s => (s, [], i)
  | fuel + 1, i, s =>
    if 0 < s.remaining_seconds ∧ running i = true then
      let p := tickStep s
      let q := runLoop running fuel (i + 1) p.1
      (q.1, p.2 ++ q.2.1, q.2.2)
    else (s, [], i)

/-- SessionTimer.run in full: run the while loop, then (source lines
153-156 of Dashboard.py, 248-252 of main.py) read is_running once more;
when it is still set the run ended by natural expiry, so play the "end"
cue and invoke on_end; finally clear is_running. -/
def sessionRunWith (running : Nat → Bool) (s : SessionTimer) : SessionTimer × List TimerEvent :=
  let q := runLoop running s.remaining_seconds 0 s
  if running q.2.2 = true then
    ({ q.1 with is_running := false }, q.2.1 ++ [TimerEvent.endEv])
  else
    ({ q.1 with is_running := false }, q.2.1)

/-- A run during which stop is never called: the is_running flag stays
true at every read. -/
def sessionRun (s : SessionTimer) : SessionTimer × List TimerEvent :=
  sessionRunWith (fun _ => true) s

/-- A stop call that lands before the k-th read of is_running by the run
thread: the flag reads true for the first k checks and false afterwards. -/
def stopAt (k : Nat) : Nat → Bool :=
  fun j => decide (j < k)

/-- The complete uninterrupted run of a freshly constructed and started
timer of the given duration. -/
def runTimer (duration_minutes : Nat) : SessionTimer × List TimerEvent :=
  sessionRun (SessionTimer.start (SessionTimer.init duration_minutes))

/-- Does this event record a reminder firing for threshold T? -/
def isRemindFor (T : Nat) : TimerEvent → Bool
  | TimerEvent.remind t _ _ => t == T
  | _ => false

/-- The sublist of reminder firings for threshold T in an event log. -/
def remindsFor (T : Nat) (evs : List TimerEvent) : List TimerEvent :=
  evs.filter (isRemindFor T)

/-- Exactly k passes of the while-loop body, with their accumulated
events: the reference trajectory a run stopped before its k-th condition
check follows. -/
def iterTick : Nat → SessionTimer → SessionTimer × List TimerEvent
  | 0, s => (s, [])
  | k + 1, s =>
    let p := tickStep s
    let q := iterTick k p.1
    (q.1, p.2 ++ q.2)

/-! Helper lemmas about the timer loop. -/

theorem tickStep_of_none (s : SessionTimer)
    (h : reminder_points ((s.remaining_seconds - 1) / 60) = none) :
    tickStep s = ({ s with remaining_seconds := s.remaining_seconds - 1 },
      [TimerEvent.tickEv (s.remaining_seconds - 1)]) := by
  simp only [tickStep, h]

theorem tickStep_of_mem (s : SessionTimer) (cue : String)
    (h : reminder_points ((s.remaining_seconds - 1) / 60) = some cue)
    (hm : (s.remaining_seconds - 1) / 60 ∈ s.reminded) :
    tickStep s = ({ s with remaining_seconds := s.remaining_seconds - 1 },
      [TimerEvent.tickEv (s.remaining_seconds - 1)]) := by
  simp only [tickStep, h]
  rw [if_pos hm]

theorem tickStep_of_not_mem (s : SessionTimer) (cue : String)
    (h : reminder_points ((s.remaining_seconds - 1) / 60) = some cue)
    (hm : (s.remaining_seconds - 1) / 60 ∉ s.reminded) :
    tickStep s = ({ s with
        remaining_seconds := s.remaining_seconds - 1
        reminded := (s.remaining_seconds - 1) / 60 :: s.reminded },
      [TimerEvent.tickEv (s.remaining_seconds - 1),
        TimerEvent.remind ((s.remaining_seconds - 1) / 60) cue (s.remaining_seconds - 1)]) := by
  simp only [tickStep, h]
  rw [if_neg hm]

theorem remindsFor_append (T : Nat) (a b : List TimerEvent) :
    remindsFor T (a ++ b) = remindsFor T a ++ remindsFor T b := by
  simp [remindsFor]

theorem remindsFor_tick (T r : Nat) :
    remindsFor T [TimerEvent.tickEv r] = [] := by
  simp [remindsFor, isRemindFor]

/-- Stepping the if expression of runLoop_remindsFor from fuel to
fuel + 1 across a loop pass whose decremented minute is not T. -/
theorem remind_if_step (T fuel : Nat) (cue : String) (rem rem2 : List Nat)
    (hmm : T ∈ rem ↔ T ∈ rem2) (hne : fuel / 60 ≠ T) :
    (if T ∉ rem ∧ 60 * T < fuel
      then [TimerEvent.remind T cue (min (fuel - 1) (60 * T + 59))] else []) =
    (if T ∉ rem2 ∧ 60 * T < fuel + 1
      then [TimerEvent.remind T cue (min (fuel + 1 - 1) (60 * T + 59))] else []) := by
  by_cases hA : T ∉ rem ∧ 60 * T < fuel
  · have hB : T ∉ rem2 ∧ 60 * T < fuel + 1 :=
      ⟨fun h => hA.1 (hmm.mpr h), by omega⟩
    rw [if_pos hA, if_pos hB]
    have hlt := hA.2
    have hmin : min (fuel - 1) (60 * T + 59) = min (fuel + 1 - 1) (60 * T + 59) := by
      omega
    rw [hmin]
  · have hB : ¬ (T ∉ rem2 ∧ 60 * T < fuel + 1) := by
      intro hB
      apply hA
      refine ⟨fun h => hB.1 (hmm.mp h), ?_⟩
      have := hB.2
      omega
    rw [if_neg hA, if_neg hB]

/-- Characterization of the reminder firings of the uninterrupted loop:
starting from remaining_seconds = fuel, threshold T fires exactly once,
at remaining_seconds = min (fuel - 1) (60 T + 59) (the first decremented
value whose integer minute is T), provided T has not already fired and
the countdown still passes through minute T; otherwise it never fires. -/
theorem runLoop_remindsFor (T : Nat) (cue : String) (hT : reminder_points T = some cue) :
    ∀ (fuel i : Nat) (s : SessionTimer), s.remaining_seconds = fuel →
      remindsFor T (runLoop (fun _ => true) fuel i s).2.1 =
        (if T ∉ s.reminded ∧ 60 * T < fuel
         then [TimerEvent.remind T cue (min (fuel - 1) (60 * T + 59))]
         else []) := by
  intro fuel
  induction fuel with
  | zero =>
    intro i s hs
    have hc : ¬ (T ∉ s.reminded ∧ 60 * T < 0) := by
      rintro ⟨-, h⟩; omega
    simp [runLoop, remindsFor, hc]
  | succ fuel ih =>
    intro i s hs
    rw [runLoop]
    have hcond : 0 < s.remaining_seconds ∧ (fun _ => true : Nat → Bool) i = true :=
      ⟨by omega, rfl⟩
    rw [if_pos hcond]
    have hr : s.remaining_seconds - 1 = fuel := by omega
    rcases hp : reminder_points (fuel / 60) with _ | cue2
    · -- no reminder threshold at this minute
      have hne : fuel / 60 ≠ T := by
        intro h; rw [h, hT] at hp; cases hp
      rw [tickStep_of_none s (by rw [hr]; exact hp)]
      simp only [hr]
      rw [remindsFor_append, remindsFor_tick, List.nil_append]
      rw [ih (i + 1) { s with remaining_seconds := fuel } rfl]
      exact remind_if_step T fuel cue s.reminded s.reminded Iff.rfl hne
    · by_cases hmem0 : fuel / 60 ∈ s.reminded
      · -- threshold minute, but it already fired: a plain tick
        rw [tickStep_of_mem s cue2 (by rw [hr]; exact hp) (by rw [hr]; exact hmem0)]
        simp only [hr]
        rw [remindsFor_append, remindsFor_tick, List.nil_append]
        rw [ih (i + 1) { s with remaining_seconds := fuel } rfl]
        by_cases heq : fuel / 60 = T
        · have hmem : T ∈ s.reminded := heq ▸ hmem0
          rw [if_neg (fun h => h.1 hmem), if_neg (fun h => h.1 hmem)]
        · exact remind_if_step T fuel cue s.reminded s.reminded Iff.rfl heq
      · -- the threshold fires on this pass
        rw [tickStep_of_not_mem s cue2 (by rw [hr]; exact hp) (by rw [hr]; exact hmem0)]
        simp only [hr]
        rw [remindsFor_append]
        rw [ih (i + 1)
          { s with remaining_seconds := fuel, reminded := fuel / 60 :: s.reminded } rfl]
        by_cases heq : fuel / 60 = T
        · -- the firing threshold is T itself
          have hcue : cue2 = cue := by
            rw [heq, hT] at hp
            injection hp with h
            exact h.symm
          have hmemT : T ∉ s.reminded := heq ▸ hmem0
          have hTcons : T ∈ fuel / 60 :: s.reminded := by
            rw [heq]; exact List.mem_cons_self _ _
          rw [if_neg (fun h => h.1 hTcons)]
          have hhead :
              remindsFor T [TimerEvent.tickEv fuel,
                TimerEvent.remind (fuel / 60) cue2 fuel] =
              [TimerEvent.remind T cue fuel] := by
            simp [remindsFor, isRemindFor, heq, hcue]
          rw [hhead]
          rw [List.append_nil]
          have hK : 60 * T < fuel + 1 := by omega
          rw [if_pos ⟨hmemT, hK⟩]
          have hmin : min (fuel + 1 - 1) (60 * T + 59) = fuel := by omega
          rw [hmin]
        · -- some other threshold fires: contributes nothing for T
          have hhead :
              remindsFor T [TimerEvent.tickEv fuel,
                TimerEvent.remind (fuel / 60) cue2 fuel] = [] := by
            simp [remindsFor, isRemindFor, heq]
          rw [hhead, List.nil_append]
          refine remind_if_step T fuel cue (fuel / 60 :: s.reminded) s.reminded ?_ heq
          constructor
          · intro h
            rcases List.mem_cons.mp h with h | h
            · exact absurd h.symm heq
            · exact h
          · exact fun h => List.mem_cons_of_mem _ h

/-- Reminder firings of a complete uninterrupted run of duration m:
threshold T fires exactly once, at remaining_seconds
min (60 m - 1) (60 T + 59), when the countdown passes through minute T,
and never otherwise. -/
theorem runTimer_remindsFor (m T : Nat) (cue : String) (hT : reminder_points T = some cue) :
    remindsFor T (runTimer m).2 =
      (if 60 * T < m * 60
       then [TimerEvent.remind T cue (min (m * 60 - 1) (60 * T + 59))]
       else []) := by
  have h := runLoop_remindsFor T cue hT (m * 60) 0 (SessionTimer.start (SessionTimer.init m)) rfl
  have hstep : remindsFor T (runTimer m).2 =
      remindsFor T ((runLoop (fun _ => true) (m * 60) 0
        (SessionTimer.start (SessionTimer.init m))).2.1 ++ [TimerEvent.endEv]) := rfl
  rw [hstep, remindsFor_append, h]
  have hend : remindsFor T [TimerEvent.endEv] = [] := by
    simp [remindsFor, isRemindFor]
  rw [hend, List.append_nil]
  have hrem : (SessionTimer.start (SessionTimer.init m)).reminded = [] := rfl
  rw [hrem]
  simp

theorem tickStep_remaining (s : SessionTimer) :
    (tickStep s).1.remaining_seconds = s.remaining_seconds - 1 := by
  rcases hp : reminder_points ((s.remaining_seconds - 1) / 60) with _ | cue2
  · rw [tickStep_of_none s hp]
  · by_cases hm : (s.remaining_seconds - 1) / 60 ∈ s.reminded
    · rw [tickStep_of_mem s cue2 hp hm]
    · rw [tickStep_of_not_mem s cue2 hp hm]

theorem iterTick_remaining (k : Nat) :
    ∀ s : SessionTimer, (iterTick k s).1.remaining_seconds = s.remaining_seconds - k := by
  induction k with
  | zero => intro s; rfl
  | succ k ih =>
    intro s
    show (iterTick k (tickStep s).1).1.remaining_seconds = _
    rw [ih (tickStep s).1, tickStep_remaining]
    omega

theorem endEv_not_mem_tickStep (s : SessionTimer) :
    TimerEvent.endEv ∉ (tickStep s).2 := by
  rcases hp : reminder_points ((s.remaining_seconds - 1) / 60) with _ | cue2
  · rw [tickStep_of_none s hp]; simp
  · by_cases hm : (s.remaining_seconds - 1) / 60 ∈ s.reminded
    · rw [tickStep_of_mem s cue2 hp hm]; simp
    · rw [tickStep_of_not_mem s cue2 hp hm]; simp

theorem endEv_not_mem_iterTick (k : Nat) :
    ∀ s : SessionTimer, TimerEvent.endEv ∉ (iterTick k s).2 := by
  induction k with
  | zero => intro s; simp [iterTick]
  | succ k ih =>
    intro s
    show TimerEvent.endEv ∉ (tickStep s).2 ++ (iterTick k (tickStep s).1).2
    rw [List.mem_append]
    rintro (h | h)
    · exact endEv_not_mem_tickStep s h
    · exact ih (tickStep s).1 h

/-- A run whose is_running flag goes false before the d-th condition
check performs exactly d loop passes: it follows the iterTick
trajectory and exits at read index i + d. -/
theorem runLoop_stopAt (d : Nat) :
    ∀ (i fuel : Nat) (s : SessionTimer), d ≤ fuel → d ≤ s.remaining_seconds →
      runLoop (fun j => decide (j < i + d)) fuel i s =
        ((iterTick d s).1, (iterTick d s).2, i + d) := by
  induction d with
  | zero =>
    intro i fuel s hf hr
    cases fuel with
    | zero => simp [runLoop, iterTick]
    | succ fuel =>
      rw [runLoop, if_neg]
      · simp [iterTick]
      · rintro ⟨-, h⟩
        simp at h
  | succ d ih =>
    intro i fuel s hf hr
    cases fuel with
    | zero => omega
    | succ fuel =>
      rw [runLoop, if_pos ⟨by omega, by simp only [decide_eq_true_eq]; omega⟩]
      have hfun : (fun j => decide (j < i + (d + 1))) = (fun j => decide (j < (i + 1) + d)) := by
        funext j
        have hx : i + (d + 1) = (i + 1) + d := by omega
        rw [hx]
      rw [hfun]
      dsimp only
      rw [ih (i + 1) fuel (tickStep s).1 (by omega) (by rw [tickStep_remaining]; omega)]
      have hidx : i + (d + 1) = (i + 1) + d := by omega
      rw [hidx, iterTick]

/-- SessionTimer.run when stop lands before the k-th condition check of
a countdown that still has more than k seconds left: the run performs
exactly the first k ticks, the natural-expiry branch is skipped (the end
cue and on_end are suppressed), and the thread clears is_running. -/
theorem sessionRunWith_stopAt (s : SessionTimer) (k : Nat) (hk : k < s.remaining_seconds) :
    sessionRunWith (stopAt k) s =
      ({ (iterTick k s).1 with is_running := false }, (iterTick k s).2) := by
  have hfun : stopAt k = fun j => decide (j < 0 + k) := by
    funext j
    rw [Nat.zero_add]
    rfl
  have h := runLoop_stopAt k 0 s.remaining_seconds s (Nat.le_of_lt hk) (Nat.le_of_lt hk)
  unfold sessionRunWith
  rw [hfun, h]
  rw [if_neg (by simp)]

/-! Orchestrator model: D200Controller of src/main.py.  Side effects on
the outside world (prints, sounds, keystrokes, process control) are
recorded as an action trace; OS interaction outcomes are supplied by an
environment record. -/

/-- The externally visible steps the orchestrator and the Dashboard end
action take, in program order. -/
inductive Action
  | ensureRunning
  | acquireFocus
  | keystrokeSequence
  | playCue (cue : String)
  | timerStart (minutes : Nat)
  | timerStop
  | reportFailure (msg : String)
  | reportStatus (msg : String)
  | clearExportsFolder
  | deleteArchives
  | terminateProcess (nameContains : String)
deriving DecidableEq, Repr

/-- The mutable fields of D200Controller (main.py lines 258-264). -/
structure D200Controller where
  is_session_active : Bool
  timer : Option SessionTimer
deriving DecidableEq, Repr

/-- Outcomes of the OS interactions performed by the start sequence:
whether ensure_lightroom_running succeeds, whether
wait_for_lightroom_focus succeeds, and whether the keystroke playback
raises an exception. -/
structure SeqEnv where
  ensureOk : Bool
  focusOk : Bool
  keystrokesRaise : Bool
deriving DecidableEq, Repr

/-- D200Controller.run_start_sequence (main.py lines 296-360), the body
of the worker thread spawned by start_session: ensure the target is
running, acquire focus, play the fixed keystroke sequence, then play the
start cue and construct and start the session timer.  A failed ensure or
focus check, or an exception during the keystrokes, clears
is_session_active, reports the failure and returns without touching
self.timer. -/
def run_start_sequence (env : SeqEnv) (c : D200Controller) (minutes : Nat) :
    D200Controller × List Action :=
  if env.ensureOk = false then
    ({ c with is_session_active := false },
      [Action.ensureRunning, Action.reportFailure "Could not start Lightroom."])
  else if env.focusOk = false then
    ({ c with is_session_active := false },
      [Action.ensureRunning, Action.acquireFocus,
        Action.reportFailure "Could not focus Lightroom."])
  else if env.keystrokesRaise then
    ({ c with is_session_active := false },
      [Action.ensureRunning, Action.acquireFocus, Action.keystrokeSequence,
        Action.reportFailure "Exception during sequence"])
  else
    ({ c with timer := some (SessionTimer.start (SessionTimer.init minutes)) },
      [Action.ensureRunning, Action.acquireFocus, Action.keystrokeSequence,
        Action.playCue "start", Action.timerStart minutes])

/-- Result of a start_session call: rejected because a session is
already active, or the worker thread was spawned. -/
inductive StartOutcome
  | alreadyActive
  | sequenceLaunched
deriving DecidableEq, Repr

/-- D200Controller.start_session (main.py lines 266-278).  Under the
lock: when is_session_active is already set, print the already-active
notice and return with no further effect; otherwise set the flag and
spawn run_start_sequence on a worker thread (modelled by running it with
the given environment). -/
def start_session (env : SeqEnv) (c : D200Controller) (minutes : Nat) :
    D200Controller × List Action × StartOutcome :=
  if c.is_session_active then (c, [], StartOutcome.alreadyActive)
  else
    let p := run_start_sequence env { c with is_session_active := true } minutes
    (p.1, p.2, StartOutcome.sequenceLaunched)

/-- D200Controller.end_session (main.py lines 280-294).  When no session
is active: print the notice and return unchanged.  Otherwise stop and
drop the timer when one exists, clear the flag, play the end cue and
report.  Note that this method performs no process termination. -/
def end_session (c : D200Controller) : D200Controller × List Action :=
  if c.is_session_active = false then
    (c, [Action.reportStatus "No active session to end."])
  else
    match c.timer with
    | some _ =>
        ({ is_session_active := false, timer := none },
          [Action.timerStop, Action.playCue "end",
            Action.reportStatus "Session ended manually."])
    | none =>
        ({ is_session_active := false, timer := none },
          [Action.playCue "end", Action.reportStatus "Session ended manually."])

/-- The Dashboard end action (Dashboard.py: Api.execute_action "end",
lines 441-443, which calls Api.stop_timer followed by
MacroActions.end_session lines 344-366): stop and drop the timer when
one exists, empty the export folder, delete the produced archives, and
terminate every process whose name contains the configured name
(best effort, exceptions swallowed).  It checks no active flag and plays
no cue. -/
def dashboard_end_action (hasTimer : Bool) (process_name : String) : List Action :=
  (if hasTimer then [Action.timerStop] else []) ++
    [Action.clearExportsFolder, Action.deleteArchives,
      Action.terminateProcess process_name,
      Action.reportStatus "Session end complete"]

/-! Dashboard start path: Api.start_session of src/Dashboard.py
(lines 459-475), with MacroActions.start_tether (lines 264-290) and
Api.start_timer (lines 479-490). -/

/-- The timer slot of the Api bridge object (Dashboard.py line 378);
the Api keeps no active-session flag. -/
structure Api where
  timer : Option SessionTimer
deriving DecidableEq, Repr

/-- How a MacroActions.start_tether call ends: the launch-failure or
focus-failure status string, the tether-started status string, or an
exception escaping from the keystroke playback.  Only the exception
propagates; the failure strings are ordinary return values. -/
inductive TetherOutcome
  | launchFailedMsg
  | focusFailedMsg
  | startedMsg
  | raised
deriving DecidableEq, Repr

/-- The status string Api.start_session passes to updateStatus for each
tether outcome. -/
def tetherMsg : TetherOutcome → String
  | TetherOutcome.launchFailedMsg => "Lightroom launch failed"
  | TetherOutcome.focusFailedMsg => "Lightroom focus failed"
  | TetherOutcome.startedMsg => "Tether started"
  | TetherOutcome.raised => "Error"

/-- MacroActions.start_tether: a failed ensure_lightroom_running or
wait_for_lightroom_focus check makes it return the corresponding
failure string; otherwise it plays the keystroke sequence, which either
raises or ends with the tether-started string. -/
def start_tether (env : SeqEnv) : TetherOutcome × List Action :=
  if env.ensureOk = false then
    (TetherOutcome.launchFailedMsg, [Action.ensureRunning])
  else if env.focusOk = false then
    (TetherOutcome.focusFailedMsg, [Action.ensureRunning, Action.acquireFocus])
  else if env.keystrokesRaise then
    (TetherOutcome.raised,
      [Action.ensureRunning, Action.acquireFocus, Action.keystrokeSequence])
  else
    (TetherOutcome.startedMsg,
      [Action.ensureRunning, Action.acquireFocus, Action.keystrokeSequence])

/-- The Python truthiness test "self.timer and self.timer.is_running". -/
def timerRunning (o : Option SessionTimer) : Bool :=
  match o with
  | some t => t.is_running
  | none => false

/-- Api.start_timer: stop the current timer when one is present and
running, then unconditionally construct a fresh SessionTimer for the
requested minutes and start it.  There is no already-active check. -/
def api_start_timer (a : Api) (minutes : Nat) : Api × List Action :=
  ({ timer := some (SessionTimer.start (SessionTimer.init minutes)) },
    (if timerRunning a.timer = true then [Action.timerStop] else []) ++
      [Action.timerStart minutes])

/-- Api.start_session: the worker thread sets result to the string
start_tether returns and then calls Api.start_timer; the surrounding
try only catches exceptions, so a launch or focus failure — being a
returned string — still reaches the timer start.  Only a raise skips
the timer start.  Either way the result string is reported via
updateStatus.  Returns the new Api state, the action trace and the
tether outcome. -/
def api_start_session (env : SeqEnv) (a : Api) (minutes : Nat) :
    Api × List Action × TetherOutcome :=
  let p := start_tether env
  if p.1 = TetherOutcome.raised then
    (a, p.2 ++ [Action.reportStatus (tetherMsg p.1)], p.1)
  else
    let q := api_start_timer a minutes
    (q.1, p.2 ++ q.2 ++ [Action.reportStatus (tetherMsg p.1)], p.1)

/-! Focus acquisition model: WindowsController of src/main.py.  The
window locator is the environment: find i is what find_window_by_title
returns at its i-th call inside the given loop, and foreground i is the
foreground window the OS reports on iteration i after the activation
attempt. -/

/-- The retry loop of WindowsController.wait_for_lightroom_focus
(main.py lines 189-201): on each of the at most max_retries iterations,
look for the window; when absent, sleep and retry; when found, try to
activate it and succeed exactly when the OS then reports it as the
foreground window.  Returns the success flag and the number of
iterations executed. -/
def waitFocusLoop (find : Nat → Option Nat) (foreground : Nat → Nat) :
    Nat → Nat → Bool × Nat
  | 0, _ => (false, 0)
  | n + 1, i =>
    match find i with
    | none =>
      let q := waitFocusLoop find foreground n (i + 1)
      (q.1, q.2 + 1)
    | some hwnd =>
      if foreground i = hwnd then (true, 1)
      else
        let q := waitFocusLoop find foreground n (i + 1)
        (q.1, q.2 + 1)

/-- WindowsController.wait_for_lightroom_focus (main.py lines 181-203):
on a non-Windows host the check is skipped and reports success;
otherwise the bounded retry loop decides. -/
def wait_for_lightroom_focus (windowsAvailable : Bool) (find : Nat → Option Nat)
    (foreground : Nat → Nat) (max_retries : Nat) : Bool × Nat :=
  if windowsAvailable = false then (true, 0)
  else waitFocusLoop find foreground max_retries 0

/-- The post-launch wait loop of WindowsController.ensure_lightroom_running
(main.py lines 171-175): up to 20 iterations, sleep and look for the
window; stop with success at the first sighting. -/
def launchWaitLoop (find : Nat → Option Nat) : Nat → Nat → Bool × Nat
  | 0, _ => (false, 0)
  | n + 1, i =>
    match find i with
    | some _ => (true, 1)
    | none =>
      let q := launchWaitLoop find n (i + 1)
      (q.1, q.2 + 1)

/-- WindowsController.ensure_lightroom_running (main.py lines 154-179):
already-running processes short-circuit to success (is_process_running
reports false on a non-Windows host); an invalid executable path or an
exception while spawning fails; otherwise the bounded 20-iteration
window wait decides, failing when it is exhausted. -/
def ensure_lightroom_running (windowsAvailable processRunning pathValid launchRaises : Bool)
    (find : Nat → Option Nat) : Bool × Nat :=
  if (windowsAvailable && processRunning) = true then (true, 0)
  else if pathValid = false then (false, 0)
  else if launchRaises then (false, 0)
  else launchWaitLoop find 20 0

/-! Export archiving model: MacroActions.compress_folder of
src/Dashboard.py lines 314-342.  The filesystem state is the export
directory: whether it exists and the relative paths (as component lists)
of every regular file in its tree. -/

/-- The export source directory. -/
structure ExportDir where
  dirExists : Bool
  files : List (List String)
deriving DecidableEq, Repr

/-- The regular files the emptiness check of compress_folder sees: the
iterdir pass lists only direct children, so only single-component
paths. -/
def topLevelFiles (d : ExportDir) : List (List String) :=
  d.files.filter (fun p => p.length == 1)

/-- Result of compress_folder: the missing-directory branch (creates the
folder and returns no path), the no-files branch (returns no path and
writes no archive), a write error, or a created archive whose entries
are the stored relative paths. -/
inductive CompressResult
  | folderCreated
  | noFiles
  | zipError
  | zipCreated (entries : List (List String))
deriving DecidableEq, Repr

/-- MacroActions.compress_folder: create the directory and return when
it is missing; return the no-photos message when iterdir finds no direct
regular file; otherwise write a timestamped archive holding every
regular file found by the recursive rglob walk, stored relative to the
source directory. -/
def compress_folder (d : ExportDir) (zipRaises : Bool) : CompressResult :=
  if d.dirExists = false then CompressResult.folderCreated
  else if topLevelFiles d = [] then CompressResult.noFiles
  else if zipRaises then CompressResult.zipError
  else CompressResult.zipCreated d.files

/-! Additional small helper lemmas used by the claim theorems. -/

theorem runLoop_false (fuel i : Nat) (s : SessionTimer) :
    runLoop (fun _ => false) fuel i s = (s, [], i) := by
  cases fuel with
  | zero => rfl
  | succ fuel =>
    rw [runLoop, if_neg]
    rintro ⟨-, h⟩
    cases h

theorem start_of_not_running (t : SessionTimer) (h : t.is_running = false) :
    SessionTimer.start t = { t with is_running := true, reminded := [] } := by
  unfold SessionTimer.start
  rw [if_neg (by simp [h])]

/-! Claim theorems. -/

/-- C1 (amended): for every configured reminder threshold T that the
countdown actually passes through, that is T < duration, the reminder
callback and cue for T fire exactly once in a complete uninterrupted
run, at the first tick whose decremented remaining_seconds has integer
minute T, namely remaining_seconds = 60 T + 59. -/
theorem C1_reminder_fires_once (m T : Nat) (cue : String)
    (hT : reminder_points T = some cue) (hTm : T < m) :
    remindsFor T (runTimer m).2 = [TimerEvent.remind T cue (60 * T + 59)] ∧
    (60 * T + 59) / 60 = T := by
  constructor
  · rw [runTimer_remindsFor m T cue hT]
    rw [if_pos (by omega)]
    have hmin : min (m * 60 - 1) (60 * T + 59) = 60 * T + 59 := by omega
    rw [hmin]
  · omega

/-- C1 counterexample: threshold 15 is configured, yet in the complete
uninterrupted 10-minute run it never fires, because the countdown never
passes through minute 15; so the claim fails as universally stated. -/
theorem C1_counterexample :
    reminder_points 15 = some "end_15min" ∧
    remindsFor 15 (runTimer 10).2 = [] := by
  refine ⟨rfl, ?_⟩
  rw [runTimer_remindsFor 10 15 "end_15min" rfl]
  rw [if_neg (by omega)]

/-- C1 witness: the 15-minute threshold in a 30-minute run. -/
theorem C1_witness :
    reminder_points 15 = some "end_15min" ∧ 15 < 30 ∧
    remindsFor 15 (runTimer 30).2 = [TimerEvent.remind 15 "end_15min" 959] := by
  refine ⟨rfl, by omega, ?_⟩
  have h := (C1_reminder_fires_once 30 15 "end_15min" rfl (by omega)).1
  simpa using h

/-- C3: a stop whose effect lands before the k-th loop check of a timer
that still has more than k seconds left makes the run perform exactly
the first k ticks: the emitted events are precisely those of the first k
loop passes (so no reminder fires at any later tick), the natural-expiry
branch with its end cue and callback is suppressed, and the thread exits
not running with remaining_seconds still positive. -/
theorem C3_stop_suppresses (s : SessionTimer) (k : Nat) (hk : k < s.remaining_seconds) :
    (sessionRunWith (stopAt k) s).2 = (iterTick k s).2 ∧
    TimerEvent.endEv ∉ (sessionRunWith (stopAt k) s).2 ∧
    (sessionRunWith (stopAt k) s).1.is_running = false ∧
    (sessionRunWith (stopAt k) s).1.remaining_seconds = s.remaining_seconds - k := by
  rw [sessionRunWith_stopAt s k hk]
  exact ⟨rfl, endEv_not_mem_iterTick k s, rfl, iterTick_remaining k s⟩

/-- C3 witness: stopping a 2-minute timer after 30 ticks. -/
theorem C3_witness :
    30 < (SessionTimer.start (SessionTimer.init 2)).remaining_seconds ∧
    TimerEvent.endEv ∉
      (sessionRunWith (stopAt 30) (SessionTimer.start (SessionTimer.init 2))).2 :=
  ⟨by decide,
    (C3_stop_suppresses (SessionTimer.start (SessionTimer.init 2)) 30 (by decide)).2.1⟩

/-- C7 (amended): in the start(30) scenario with a cooperative
environment the sequence completes and constructs the timer with
remaining_seconds = 1800, and the two configured reminder cues fire
exactly once each, at the ticks where remaining_seconds equals 959 and
359 (the first ticks at which the integer remaining minute equals 15 and
5) rather than at 900 and 300. -/
theorem C7_scenario :
    (start_session ⟨true, true, false⟩ ⟨false, none⟩ 30).2.2 = StartOutcome.sequenceLaunched ∧
    (start_session ⟨true, true, false⟩ ⟨false, none⟩ 30).1.timer =
      some (SessionTimer.start (SessionTimer.init 30)) ∧
    (SessionTimer.start (SessionTimer.init 30)).remaining_seconds = 1800 ∧
    Action.timerStart 30 ∈ (start_session ⟨true, true, false⟩ ⟨false, none⟩ 30).2.1 ∧
    remindsFor 15 (runTimer 30).2 = [TimerEvent.remind 15 "end_15min" 959] ∧
    remindsFor 5 (runTimer 30).2 = [TimerEvent.remind 5 "end_5min" 359] := by
  refine ⟨rfl, rfl, rfl, by decide, ?_, ?_⟩
  · have h := runTimer_remindsFor 30 15 "end_15min" rfl
    rw [if_pos (by omega)] at h
    rw [show min (30 * 60 - 1) (60 * 15 + 59) = 959 from by omega] at h
    exact h
  · have h := runTimer_remindsFor 30 5 "end_5min" rfl
    rw [if_pos (by omega)] at h
    rw [show min (30 * 60 - 1) (60 * 5 + 59) = 359 from by omega] at h
    exact h

/-- C7 counterexample: the 15-minute cue of the 30-minute run fires at
remaining_seconds = 959; no reminder event with remaining_seconds = 900
or 300 occurs anywhere in the run, refuting the claimed firing ticks. -/
theorem C7_counterexample :
    TimerEvent.remind 15 "end_15min" 959 ∈ (runTimer 30).2 ∧
    TimerEvent.remind 15 "end_15min" 900 ∉ (runTimer 30).2 ∧
    TimerEvent.remind 5 "end_5min" 300 ∉ (runTimer 30).2 := by
  have h15 := runTimer_remindsFor 30 15 "end_15min" rfl
  have h5 := runTimer_remindsFor 30 5 "end_5min" rfl
  rw [if_pos (by omega)] at h15
  rw [if_pos (by omega)] at h5
  rw [show min (30 * 60 - 1) (60 * 15 + 59) = 959 from by omega] at h15
  rw [show min (30 * 60 - 1) (60 * 5 + 59) = 359 from by omega] at h5
  refine ⟨?_, ?_, ?_⟩
  · have hm : TimerEvent.remind 15 "end_15min" 959 ∈ remindsFor 15 (runTimer 30).2 := by
      rw [h15]
      exact List.mem_singleton.mpr rfl
    exact List.mem_of_mem_filter hm
  · intro hmem
    have hm : TimerEvent.remind 15 "end_15min" 900 ∈ remindsFor 15 (runTimer 30).2 :=
      List.mem_filter.mpr ⟨hmem, by decide⟩
    rw [h15] at hm
    have := List.mem_singleton.mp hm
    cases this
  · intro hmem
    have hm : TimerEvent.remind 5 "end_5min" 300 ∈ remindsFor 5 (runTimer 30).2 :=
      List.mem_filter.mpr ⟨hmem, by decide⟩
    rw [h5] at hm
    have := List.mem_singleton.mp hm
    cases this

/-- C9 (amended): stop leaves the timer not running and, with no
further start call, the run thread does nothing more: the loop exits at
once with no event and the expiry branch is skipped.  But stop is not
terminal for the timer object: a later start call on the same object
sets is_running again and resumes the countdown from the current
remaining_seconds, with the fired-reminders set cleared. -/
theorem C9_stop_semantics (t : SessionTimer) (h : t.is_running = false) :
    sessionRunWith (fun _ => false) t = ({ t with is_running := false }, []) ∧
    (SessionTimer.start t).is_running = true ∧
    (SessionTimer.start t).remaining_seconds = t.remaining_seconds ∧
    (SessionTimer.start t).reminded = [] := by
  refine ⟨?_, ?_, ?_, ?_⟩
  · unfold sessionRunWith
    rw [runLoop_false]
    rw [if_neg (by simp)]
  · rw [start_of_not_running t h]
  · rw [start_of_not_running t h]
  · rw [start_of_not_running t h]

/-- C9 counterexample: start a 1-minute timer, stop it, then call start
on the same object: it is Running again with its 60 remaining seconds
intact, and the resumed run reaches natural expiry and fires the end
event — so a later start does return the timer to Running and resumes
its countdown. -/
theorem C9_counterexample :
    (SessionTimer.stop (SessionTimer.start (SessionTimer.init 1))).is_running = false ∧
    (SessionTimer.start
      (SessionTimer.stop (SessionTimer.start (SessionTimer.init 1)))).is_running = true ∧
    (SessionTimer.start
      (SessionTimer.stop (SessionTimer.start (SessionTimer.init 1)))).remaining_seconds = 60 ∧
    TimerEvent.endEv ∈ (sessionRun (SessionTimer.start
      (SessionTimer.stop (SessionTimer.start (SessionTimer.init 1))))).2 := by
  refine ⟨by decide, by decide, by decide, by decide⟩

/-- C9 witness: the stopped 1-minute timer. -/
theorem C9_witness :
    (SessionTimer.stop (SessionTimer.start (SessionTimer.init 1))).is_running = false ∧
    (SessionTimer.start
        (SessionTimer.stop (SessionTimer.start (SessionTimer.init 1)))).remaining_seconds =
      (SessionTimer.stop (SessionTimer.start (SessionTimer.init 1))).remaining_seconds :=
  ⟨by decide,
    (C9_stop_semantics (SessionTimer.stop (SessionTimer.start (SessionTimer.init 1)))
      (by decide)).2.2.1⟩

/-- C10: a timer constructed with duration 0 has remaining_seconds = 0;
start sets it Running, the run loop body never executes (no tick or
reminder event), the natural-expiry branch plays the end cue and invokes
the end callback, and afterwards is_running is false. -/
theorem C10_zero_duration :
    (SessionTimer.start (SessionTimer.init 0)).is_running = true ∧
    (SessionTimer.start (SessionTimer.init 0)).remaining_seconds = 0 ∧
    sessionRun (SessionTimer.start (SessionTimer.init 0)) =
      ({ duration_minutes := 0, total_seconds := 0, remaining_seconds := 0,
          is_running := false, reminded := [] }, [TimerEvent.endEv]) := by
  refine ⟨by decide, by decide, by decide⟩

/-! Helper lemmas for the Dashboard start path. -/

theorem start_tether_ensure_fail (env : SeqEnv) (h : env.ensureOk = false) :
    start_tether env = (TetherOutcome.launchFailedMsg, [Action.ensureRunning]) := by
  unfold start_tether
  rw [if_pos h]

theorem start_tether_focus_fail (env : SeqEnv) (he : ¬ env.ensureOk = false)
    (h : env.focusOk = false) :
    start_tether env =
      (TetherOutcome.focusFailedMsg, [Action.ensureRunning, Action.acquireFocus]) := by
  unfold start_tether
  rw [if_neg he, if_pos h]

theorem start_tether_raise (env : SeqEnv) (he : env.ensureOk = true)
    (hf : env.focusOk = true) (hk : env.keystrokesRaise = true) :
    start_tether env = (TetherOutcome.raised,
      [Action.ensureRunning, Action.acquireFocus, Action.keystrokeSequence]) := by
  unfold start_tether
  rw [if_neg (by simp [he]), if_neg (by simp [hf]), if_pos hk]

theorem start_tether_ok (env : SeqEnv) (he : env.ensureOk = true)
    (hf : env.focusOk = true) (hk : env.keystrokesRaise = false) :
    start_tether env = (TetherOutcome.startedMsg,
      [Action.ensureRunning, Action.acquireFocus, Action.keystrokeSequence]) := by
  unfold start_tether
  rw [if_neg (by simp [he]), if_neg (by simp [hf]), if_neg (by simp [hk])]

theorem api_start_session_not_raised (env : SeqEnv) (a : Api) (m : Nat)
    (h : (start_tether env).1 ≠ TetherOutcome.raised) :
    api_start_session env a m =
      ((api_start_timer a m).1,
        (start_tether env).2 ++ (api_start_timer a m).2 ++
          [Action.reportStatus (tetherMsg (start_tether env).1)],
        (start_tether env).1) := by
  simp only [api_start_session]
  rw [if_neg h]

theorem api_start_session_raised (env : SeqEnv) (a : Api) (m : Nat)
    (h : (start_tether env).1 = TetherOutcome.raised) :
    api_start_session env a m =
      (a, (start_tether env).2 ++ [Action.reportStatus (tetherMsg (start_tether env).1)],
        (start_tether env).1) := by
  simp only [api_start_session]
  rw [if_pos h]

theorem timerStart_mem_api_start_timer (a : Api) (m : Nat) :
    Action.timerStart m ∈ (api_start_timer a m).2 := by
  unfold api_start_timer
  by_cases hb : timerRunning a.timer = true
  · rw [if_pos hb]
    simp
  · rw [if_neg hb]
    simp

theorem run_start_sequence_failure (env : SeqEnv) (c : D200Controller) (minutes : Nat)
    (h : env.ensureOk = false ∨ env.focusOk = false ∨ env.keystrokesRaise = true) :
    (run_start_sequence env c minutes).1.is_session_active = false ∧
    (run_start_sequence env c minutes).1.timer = c.timer ∧
    (∃ msg, Action.reportFailure msg ∈ (run_start_sequence env c minutes).2) ∧
    ∀ mm, Action.timerStart mm ∉ (run_start_sequence env c minutes).2 := by
  by_cases he : env.ensureOk = false
  · have heq : run_start_sequence env c minutes =
        ({ c with is_session_active := false },
          [Action.ensureRunning, Action.reportFailure "Could not start Lightroom."]) := by
      unfold run_start_sequence
      rw [if_pos he]
    rw [heq]
    exact ⟨rfl, rfl, ⟨"Could not start Lightroom.", by simp⟩, fun mm => by simp⟩
  · by_cases hf : env.focusOk = false
    · have heq : run_start_sequence env c minutes =
          ({ c with is_session_active := false },
            [Action.ensureRunning, Action.acquireFocus,
              Action.reportFailure "Could not focus Lightroom."]) := by
        unfold run_start_sequence
        rw [if_neg he, if_pos hf]
      rw [heq]
      exact ⟨rfl, rfl, ⟨"Could not focus Lightroom.", by simp⟩, fun mm => by simp⟩
    · have hk : env.keystrokesRaise = true := by
        rcases h with h | h | h
        · exact absurd h he
        · exact absurd h hf
        · exact h
      have heq : run_start_sequence env c minutes =
          ({ c with is_session_active := false },
            [Action.ensureRunning, Action.acquireFocus, Action.keystrokeSequence,
              Action.reportFailure "Exception during sequence"]) := by
        unfold run_start_sequence
        rw [if_neg he, if_neg hf, if_pos hk]
      rw [heq]
      exact ⟨rfl, rfl, ⟨"Exception during sequence", by simp⟩, fun mm => by simp⟩

/-- Concrete Api bridge state holding a started (running) 30-minute
timer: a session is active on the Dashboard bridge. -/
def apiWithRunning30 : Api :=
  { timer := some (SessionTimer.start (SessionTimer.init 30)) }

/-- C2 (amended): only the hotkey controller enforces mutual exclusion:
a start_session on D200Controller while its session is active is
rejected immediately under the lock with the already-active signal,
leaving the flag and timer unchanged and performing no action, so at
most one session is active per D200Controller instance.  The Dashboard
bridge Api.start_session performs no already-active check: a further
start while a timer is running proceeds to focus acquisition again,
stops the running timer and replaces it with a fresh one. -/
theorem C2_start_concurrency (env env2 : SeqEnv) (c : D200Controller) (a : Api)
    (t : SessionTimer) (minutes m2 : Nat)
    (hc : c.is_session_active = true)
    (ha : a.timer = some t) (ht : t.is_running = true)
    (he : env2.ensureOk = true) (hf : env2.focusOk = true)
    (hk : env2.keystrokesRaise = false) :
    start_session env c minutes = (c, [], StartOutcome.alreadyActive) ∧
    Action.acquireFocus ∈ (api_start_session env2 a m2).2.1 ∧
    Action.timerStop ∈ (api_start_session env2 a m2).2.1 ∧
    (api_start_session env2 a m2).1.timer =
      some (SessionTimer.start (SessionTimer.init m2)) := by
  have h1 : start_session env c minutes = (c, [], StartOutcome.alreadyActive) := by
    unfold start_session
    rw [if_pos hc]
  have ht2 := start_tether_ok env2 he hf hk
  have hnr : (start_tether env2).1 ≠ TetherOutcome.raised := by
    rw [ht2]
    decide
  have happ := api_start_session_not_raised env2 a m2 hnr
  have htr : timerRunning a.timer = true := by
    rw [ha]
    exact ht
  have htim : api_start_timer a m2 =
      ({ timer := some (SessionTimer.start (SessionTimer.init m2)) },
        [Action.timerStop, Action.timerStart m2]) := by
    unfold api_start_timer
    rw [if_pos htr]
    rfl
  refine ⟨h1, ?_, ?_, ?_⟩
  · rw [happ, ht2, htim]
    simp
  · rw [happ, ht2, htim]
    simp
  · rw [happ, htim]

/-- C2 counterexample: the claim cites Api.start_session of
Dashboard.py, which has no already-active check.  With a running
30-minute timer (a session is active), a further start(55) is not
rejected: focus acquisition begins (acquireFocus is in the trace), the
running timer is stopped, and the timer slot is replaced by a fresh
55-minute timer — visible side effects, and no already-active signal
exists on this path. -/
theorem C2_counterexample :
    apiWithRunning30.timer = some (SessionTimer.start (SessionTimer.init 30)) ∧
    (SessionTimer.start (SessionTimer.init 30)).is_running = true ∧
    Action.acquireFocus ∈ (api_start_session ⟨true, true, false⟩ apiWithRunning30 55).2.1 ∧
    Action.timerStop ∈ (api_start_session ⟨true, true, false⟩ apiWithRunning30 55).2.1 ∧
    (api_start_session ⟨true, true, false⟩ apiWithRunning30 55).1.timer =
      some (SessionTimer.start (SessionTimer.init 55)) := by
  refine ⟨rfl, rfl, by decide, by decide, by decide⟩

/-- C2 witness: a second start(30) against an active hotkey controller,
and a second start(55) against the Dashboard bridge with a running
timer. -/
theorem C2_witness :
    ({ is_session_active := true, timer := none } : D200Controller).is_session_active
      = true ∧
    start_session ⟨true, true, false⟩ { is_session_active := true, timer := none } 30 =
      ({ is_session_active := true, timer := none }, [], StartOutcome.alreadyActive) := by
  have h := C2_start_concurrency ⟨true, true, false⟩ ⟨true, true, false⟩
    { is_session_active := true, timer := none } apiWithRunning30
    (SessionTimer.start (SessionTimer.init 30)) 30 55 rfl rfl rfl rfl rfl rfl
  exact ⟨rfl, h.1⟩

/-- C4 (amended): on the hotkey controller, any failure of the ensure
or focus step, or an exception during the keystroke playback, clears
is_session_active, reports the failure, and never starts the session
timer.  On the Dashboard bridge, start_tether reports a launch or focus
failure by returning a status string rather than raising, so
Api.start_session still calls Api.start_timer and the session timer
starts despite the failed focus acquisition; only an exception escaping
the keystroke playback (caught by the worker) leaves the timer slot
untouched and prevents any timer start. -/
theorem C4_failure_handling (env envd envr : SeqEnv) (c : D200Controller)
    (a ar : Api) (minutes md mr : Nat)
    (h : env.ensureOk = false ∨ env.focusOk = false ∨ env.keystrokesRaise = true)
    (hd : envd.ensureOk = false ∨ envd.focusOk = false)
    (hre : envr.ensureOk = true) (hrf : envr.focusOk = true)
    (hrk : envr.keystrokesRaise = true) :
    (run_start_sequence env c minutes).1.is_session_active = false ∧
    (run_start_sequence env c minutes).1.timer = c.timer ∧
    (∃ msg, Action.reportFailure msg ∈ (run_start_sequence env c minutes).2) ∧
    (∀ mm, Action.timerStart mm ∉ (run_start_sequence env c minutes).2) ∧
    (api_start_session envd a md).1.timer =
      some (SessionTimer.start (SessionTimer.init md)) ∧
    Action.timerStart md ∈ (api_start_session envd a md).2.1 ∧
    (api_start_session envr ar mr).1 = ar ∧
    (∀ mm, Action.timerStart mm ∉ (api_start_session envr ar mr).2.1) := by
  obtain ⟨g1, g2, g3, g4⟩ := run_start_sequence_failure env c minutes h
  have hdnr : (start_tether envd).1 ≠ TetherOutcome.raised := by
    by_cases he2 : envd.ensureOk = false
    · rw [start_tether_ensure_fail envd he2]
      decide
    · have hfd : envd.focusOk = false := by
        rcases hd with hd | hd
        · exact absurd hd he2
        · exact hd
      rw [start_tether_focus_fail envd he2 hfd]
      decide
  have happd := api_start_session_not_raised envd a md hdnr
  have htr := start_tether_raise envr hre hrf hrk
  have hrr : (start_tether envr).1 = TetherOutcome.raised := by
    rw [htr]
  have happr := api_start_session_raised envr ar mr hrr
  refine ⟨g1, g2, g3, g4, ?_, ?_, ?_, ?_⟩
  · rw [happd]
    rfl
  · rw [happd]
    exact List.mem_append.mpr
      (Or.inl (List.mem_append.mpr (Or.inr (timerStart_mem_api_start_timer a md))))
  · rw [happr]
  · intro mm
    rw [happr, htr]
    simp

/-- C4 counterexample: the claim cites Api.start_session of
Dashboard.py.  When focus acquisition fails there, start_tether returns
the focus-failure string instead of raising, so the session timer is
constructed and started anyway for that very attempt. -/
theorem C4_counterexample :
    (⟨true, false, false⟩ : SeqEnv).focusOk = false ∧
    (api_start_session ⟨true, false, false⟩ { timer := none } 30).2.2 =
      TetherOutcome.focusFailedMsg ∧
    Action.timerStart 30 ∈
      (api_start_session ⟨true, false, false⟩ { timer := none } 30).2.1 ∧
    (api_start_session ⟨true, false, false⟩ { timer := none } 30).1.timer =
      some (SessionTimer.start (SessionTimer.init 30)) := by
  refine ⟨rfl, by decide, by decide, by decide⟩

/-- C4 witness: a focus failure on the hotkey controller and on the
Dashboard bridge, and a keystroke exception on the bridge. -/
theorem C4_witness :
    (⟨true, false, false⟩ : SeqEnv).focusOk = false ∧
    (run_start_sequence ⟨true, false, false⟩ ⟨true, none⟩ 30).1.is_session_active = false ∧
    Action.timerStart 25 ∈ (api_start_session ⟨true, false, false⟩ { timer := none } 25).2.1 := by
  have h := C4_failure_handling ⟨true, false, false⟩ ⟨true, false, false⟩ ⟨true, true, true⟩
    ⟨true, none⟩ { timer := none } { timer := none } 30 25 40
    (Or.inr (Or.inl rfl)) (Or.inr rfl) rfl rfl rfl
  exact ⟨rfl, h.1, h.2.2.2.2.2.1⟩

/-- C5 (amended): on the hotkey controller, end_session while inactive
is a no-op that only reports the not-active notice and performs no
process termination; while active it stops the timer, clears the flag
and plays the end cue, but it also performs no process termination.
Process termination of the target lives only in the Dashboard end
action, which runs without an active-session check and plays no cue. -/
theorem C5_end_session_behaviour (c1 c2 : D200Controller) (t : SessionTimer) (p : String)
    (h1 : c1.is_session_active = false)
    (h2 : c2.is_session_active = true) (h3 : c2.timer = some t) :
    end_session c1 = (c1, [Action.reportStatus "No active session to end."]) ∧
    end_session c2 = ({ is_session_active := false, timer := none },
      [Action.timerStop, Action.playCue "end",
        Action.reportStatus "Session ended manually."]) ∧
    (∀ q, Action.terminateProcess q ∉ (end_session c1).2) ∧
    (∀ q, Action.terminateProcess q ∉ (end_session c2).2) ∧
    Action.terminateProcess p ∈ dashboard_end_action true p ∧
    (∀ cue, Action.playCue cue ∉ dashboard_end_action true p) := by
  have e1 : end_session c1 = (c1, [Action.reportStatus "No active session to end."]) := by
    unfold end_session
    rw [if_pos h1]
  have e2 : end_session c2 = ({ is_session_active := false, timer := none },
      [Action.timerStop, Action.playCue "end",
        Action.reportStatus "Session ended manually."]) := by
    unfold end_session
    rw [if_neg (by simp [h2]), h3]
  refine ⟨e1, e2, ?_, ?_, ?_, ?_⟩
  · intro q
    rw [e1]
    simp
  · intro q
    rw [e2]
    simp
  · simp [dashboard_end_action]
  · intro cue
    simp [dashboard_end_action]

/-- Concrete controller state with an active session and a started
30-minute timer. -/
def activeController30 : D200Controller :=
  { is_session_active := true, timer := some (SessionTimer.start (SessionTimer.init 30)) }

/-- C5 counterexample: ending an active session through the hotkey
controller stops the timer, plays the cue and reports, but its action
trace contains no process termination, contrary to the claim. -/
theorem C5_counterexample :
    activeController30.is_session_active = true ∧
    (end_session activeController30).2 =
      [Action.timerStop, Action.playCue "end",
        Action.reportStatus "Session ended manually."] ∧
    Action.terminateProcess "Lightroom.exe" ∉ (end_session activeController30).2 := by
  refine ⟨rfl, by decide, by decide⟩

/-- C5 witness: an idle controller, an active controller with a timer,
and the Dashboard end action on the default process name. -/
theorem C5_witness :
    (({ is_session_active := false, timer := none } : D200Controller).is_session_active
      = false) ∧
    Action.terminateProcess "Lightroom.exe" ∈ dashboard_end_action true "Lightroom.exe" :=
  ⟨rfl,
    (C5_end_session_behaviour { is_session_active := false, timer := none }
      { is_session_active := true, timer := some (SessionTimer.init 30) }
      (SessionTimer.init 30) "Lightroom.exe" rfl rfl rfl).2.2.2.2.1⟩

/-! Lemmas for the focus acquisition loops. -/

theorem waitFocusLoop_none (find : Nat → Option Nat) (foreground : Nat → Nat)
    (hf : ∀ i, find i = none) :
    ∀ n i : Nat, waitFocusLoop find foreground n i = (false, n) := by
  intro n
  induction n with
  | zero => intro i; rfl
  | succ n ih =>
    intro i
    rw [waitFocusLoop, hf i]
    dsimp only
    rw [ih (i + 1)]

theorem launchWaitLoop_none (find : Nat → Option Nat) (hf : ∀ i, find i = none) :
    ∀ n i : Nat, launchWaitLoop find n i = (false, n) := by
  intro n
  induction n with
  | zero => intro i; rfl
  | succ n ih =>
    intro i
    rw [launchWaitLoop, hf i]
    dsimp only
    rw [ih (i + 1)]

theorem waitFocusLoop_le (find : Nat → Option Nat) (foreground : Nat → Nat) :
    ∀ n i : Nat, (waitFocusLoop find foreground n i).2 ≤ n := by
  intro n
  induction n with
  | zero => intro i; exact Nat.le_refl 0
  | succ n ih =>
    intro i
    rw [waitFocusLoop]
    rcases h : find i with _ | hwnd
    · dsimp only
      have := ih (i + 1)
      omega
    · dsimp only
      by_cases hfg : foreground i = hwnd
      · rw [if_pos hfg]
        omega
      · rw [if_neg hfg]
        dsimp only
        have := ih (i + 1)
        omega

theorem launchWaitLoop_le (find : Nat → Option Nat) :
    ∀ n i : Nat, (launchWaitLoop find n i).2 ≤ n := by
  intro n
  induction n with
  | zero => intro i; exact Nat.le_refl 0
  | succ n ih =>
    intro i
    rw [launchWaitLoop]
    rcases h : find i with _ | hwnd
    · dsimp only
      have := ih (i + 1)
      omega
    · dsimp only
      omega

/-- C6: with a locator that never returns a window, the focus wait loop
executes exactly its max_retries iterations and returns failure, and the
ensure loop (not running, valid path, spawn succeeds, window never
appears) executes exactly its 20 iterations and returns failure; and
unconditionally, every wait loop in the protocol executes at most its
retry ceiling, so the protocol always terminates. -/
theorem C6_focus_acquisition_bounded (find : Nat → Option Nat) (foreground : Nat → Nat)
    (max_retries : Nat) (hf : ∀ i, find i = none) :
    wait_for_lightroom_focus true find foreground max_retries = (false, max_retries) ∧
    ensure_lightroom_running true false true false find = (false, 20) ∧
    (∀ (g : Nat → Option Nat) (fg : Nat → Nat) (n i : Nat),
      (waitFocusLoop g fg n i).2 ≤ n) ∧
    (∀ (g : Nat → Option Nat) (n i : Nat), (launchWaitLoop g n i).2 ≤ n) := by
  refine ⟨?_, ?_, waitFocusLoop_le, launchWaitLoop_le⟩
  · unfold wait_for_lightroom_focus
    rw [if_neg (by simp)]
    exact waitFocusLoop_none find foreground hf max_retries 0
  · unfold ensure_lightroom_running
    rw [if_neg (by simp), if_neg (by simp), if_neg (by simp)]
    exact launchWaitLoop_none find hf 20 0

/-- C6 witness: the locator that always misses, with the default retry
ceiling of 10. -/
theorem C6_witness :
    ((fun _ => (none : Option Nat)) 0 = none) ∧
    wait_for_lightroom_focus true (fun _ => none) (fun _ => 0) 10 = (false, 10) :=
  ⟨rfl, (C6_focus_acquisition_bounded (fun _ => none) (fun _ => 0) 10 (fun _ => rfl)).1⟩

/-- C8 (amended): on an existing source directory, compress_folder
returns the no-files failure and writes no archive exactly when the
directory has no top-level regular file — in particular on an empty
directory, but also when files exist only inside subdirectories; when at
least one top-level regular file exists (and writing does not raise) it
returns a timestamped archive containing every regular file of the
whole directory tree under its path relative to the source directory,
which is exactly the N files when the directory is flat. -/
theorem C8_compress_behaviour (d : ExportDir) (hd : d.dirExists = true) :
    (topLevelFiles d = [] → compress_folder d false = CompressResult.noFiles) ∧
    (topLevelFiles d ≠ [] →
      compress_folder d false = CompressResult.zipCreated d.files) := by
  constructor
  · intro h
    unfold compress_folder
    rw [if_neg (by simp [hd]), if_pos h]
  · intro h
    unfold compress_folder
    rw [if_neg (by simp [hd]), if_neg h, if_neg (by simp)]

/-- C8 counterexample: a source directory containing exactly one
regular file, located in a subdirectory, is reported as having no files
and no archive is created, contrary to the claim that a directory with
N files yields an archive of those N files. -/
theorem C8_counterexample :
    ({ dirExists := true, files := [["sub", "a.jpg"]] } : ExportDir).files.length = 1 ∧
    compress_folder { dirExists := true, files := [["sub", "a.jpg"]] } false =
      CompressResult.noFiles := by
  exact ⟨rfl, by decide⟩

/-- C8 witness: a flat directory with two top-level files. -/
theorem C8_witness :
    ({ dirExists := true, files := [["a.jpg"], ["b.jpg"]] } : ExportDir).dirExists = true ∧
    compress_folder { dirExists := true, files := [["a.jpg"], ["b.jpg"]] } false =
      CompressResult.zipCreated [["a.jpg"], ["b.jpg"]] :=
  ⟨rfl, (C8_compress_behaviour { dirExists := true, files := [["a.jpg"], ["b.jpg"]] }
    rfl).2 (by decide)⟩

end D200

